import Mathlib

/-!
Verification of the `SkipList` container (src/python/SkipList/skiplist.py).

The Python class is a doubly linked list with a secondary "fast lane" of
gap-annotated anchor nodes.  We embed it as a pointer machine: nodes and
fast-lane anchors live in heaps indexed by allocation ids (`Nat`), and every
method of the class becomes a state-passing function.  Python exceptions are
modelled by an error type; an operation returns its `Except` result together
with the state at the moment it returned or raised (Python leaves all
mutations performed before an exception in place).

Numeric modelling notes (all faithful for the magnitudes reachable here):
  * Python ints are `Int`.
  * `self.current_skip * self.SKIP_GROWTH_FACTOR` with `SKIP_GROWTH_FACTOR
    = 1.5` compares exactly as `2*size > 3*current_skip`, and
    `int(self.current_skip * 1.5)` is `(3*current_skip).fdiv 2` (exact in
    IEEE doubles for the small nonnegative values that occur).
  * `int(self.size ** 0.5)` is the integer square root of the (nonnegative)
    size; `self.fast_count < (self.size ** 0.5) / 2` is `4*fc*fc < size`
    for the nonnegative `fc` that occur (float sqrt of small ints is exact
    enough that the integer comparisons agree).
  * Python `//` and `%` are `Int.fdiv` / `Int.emod`.

Loops are given fuel.  The linear node walks use exact fuel (the loop
counter itself), so they are precise.  Chain walks over the fast lane use
`fresh + 1` (one more than the total number of allocations ever made), which
bounds the length of any non-cyclic chain; on fuel exhaustion they behave as
if the loop condition failed.  All concrete traces evaluated below stay far
inside these bounds.
-/

namespace SkipVerify

/-- Values stored in the list: a Python object that is either `None` or an
integer (`none` models Python `None`). -/
abbrev Val := Option Int

/-- Errors a Python method can raise: `indexError` is the documented
`OutOfRange` failure; `valueError` models the explicit
`raise ValueError(...)` lines; `attributeError` models attribute access on
`None` (for example `None.data` or `None.next`). -/
inductive PyErr where
  | indexError
  | valueError
  | attributeError
deriving DecidableEq, Repr

/-- A primary-list node (`SkipList.ListNode`): payload plus non-owning
`prev`, owning `next`, and the back-reference `fast` to the anchor that
targets it. All references are allocation ids. -/
structure PNode where
  data : Val
  prev : Option Nat := none
  next : Option Nat := none
  fast : Option Nat := none
deriving DecidableEq, Repr

/-- A fast-lane anchor (`SkipList.FastNode`): target primary node, chain
links, and the positional gap to the previous anchor. -/
structure FNode where
  target : Option Nat := none
  prev : Option Nat := none
  next : Option Nat := none
  gap : Int := 0
deriving DecidableEq, Repr

/-- A heap maps allocation ids to objects; ids never allocated map to
`none`.  Heap cells are never deallocated (Python garbage collection is
unobservable), so an id once allocated stays resolvable -- exactly how dead
nodes remain reachable through stale pointers in the Python code.  The heap
is an association list with at most one entry per id. -/
def Heap (α : Type) := List (Nat × α)

/-- Read a heap cell. -/
def Heap.get (h : Heap α) (i : Nat) : Option α :=
  match h with
  | [] => none
  | (j, a) :: t => if j = i then some a else Heap.get t i

/-- Write a heap cell (allocating or overwriting in place). -/
def Heap.set (h : Heap α) (i : Nat) (a : α) : Heap α :=
  match h with
  | [] => [(i, a)]
  | (j, b) :: t => if j = i then (j, a) :: t else (j, b) :: Heap.set t i a

/-- Mutate a heap cell in place if it exists (a Python attribute write on an
object; the id is always live at every call site). -/
def Heap.mod (h : Heap α) (i : Nat) (f : α → α) : Heap α :=
  match h with
  | [] => []
  | (j, b) :: t => if j = i then (j, f b) :: t else (j, b) :: Heap.mod t i f

/-- The whole container state: the two heaps plus every instance field of
the Python class, and the allocation counter `fresh`. -/
structure SL where
  nodesH : Heap PNode
  fastsH : Heap FNode
  head : Option Nat := none
  tail : Option Nat := none
  size : Int := 0
  fast_head : Option Nat := none
  fast_tail : Option Nat := none
  fast_count : Int := 0
  pending_gap : Int := 0
  current_skip : Int := 25
  ops_since_rebalance : Int := 0
  fresh : Nat := 0

/-- The freshly constructed `SkipList()`. -/
def SL.empty : SL :=
  { nodesH := [], fastsH := [] }

/-- Attribute write on a primary node. -/
def SL.modN (s : SL) (i : Nat) (f : PNode → PNode) : SL :=
  { s with nodesH := s.nodesH.mod i f }

/-- Attribute write on a fast-lane anchor. -/
def SL.modF (s : SL) (i : Nat) (f : FNode → FNode) : SL :=
  { s with fastsH := s.fastsH.mod i f }

/-- Allocate (or overwrite) a primary node cell. -/
def SL.setN (s : SL) (i : Nat) (a : PNode) : SL :=
  { s with nodesH := s.nodesH.set i a }

/-- Allocate (or overwrite) a fast-lane anchor cell. -/
def SL.setF (s : SL) (i : Nat) (a : FNode) : SL :=
  { s with fastsH := s.fastsH.set i a }

/-- MIN_SKIP class constant. -/
def MIN_SKIP : Int := 25

/-- REBALANCE_THRESHOLD class constant. -/
def REBALANCE_THRESHOLD : Int := 100

/-- Largest `r ≤ bound` with `r * r ≤ n` (helper for the integer square
root; called with `bound = n`). -/
def natSqrtGo (n : Nat) : Nat → Nat
  | 0 => 0
  | k + 1 => if (k + 1) * (k + 1) ≤ n then k + 1 else natSqrtGo n k

/-- Integer square root of an `Int`, modelling Python `int(x ** 0.5)` for
the small nonnegative arguments that occur. -/
def intSqrt (n : Int) : Int := (natSqrtGo n.toNat n.toNat : Int)

/-- Pure core of `_get_dynamic_skip`: from the current `size` and
`current_skip` compute (returned skip, updated `current_skip`). -/
def dynSkipPair (size cs : Int) : Int × Int :=
  if size ≤ 1 then (MIN_SKIP, cs)
  else
    let cs' := if 2 * size > 3 * cs then min ((3 * cs).fdiv 2) (intSqrt size) else cs
    (max MIN_SKIP cs', cs')

/-- Method `_get_dynamic_skip`: returns the skip distance and persists the
recomputed `current_skip`. -/
def get_dynamic_skip (s : SL) : Int × SL :=
  let p := dynSkipPair s.size s.current_skip
  (p.1, { s with current_skip := p.2 })

/-- Method `_clear_fast_layer`. -/
def clear_fast_layer (s : SL) : SL :=
  let s := { s with fast_head := none, fast_tail := none, fast_count := 0 }
  let s := match s.head with
    | some h => s.modN h (fun n => { n with fast := none })
    | none => s
  match s.tail with
  | some t => s.modN t (fun n => { n with fast := none })
  | none => s

/-- Method `_update_tail_fast`. -/
def update_tail_fast (s : SL) : SL :=
  match s.fast_tail with
  | none => s
  | some ft =>
    let s := s.modF ft (fun fn => { fn with target := s.tail })
    match s.tail with
    | some t => s.modN t (fun n => { n with fast := some ft })
    | none => s

/-- Method `_init_fast_layer`. -/
def init_fast_layer (s : SL) : SL :=
  match s.head, s.fast_head with
  | some h, none =>
    let fhId := s.fresh
    let s := s.setF fhId { target := some h, gap := 0 }
    let s := s.modN h (fun n => { n with fast := some fhId })
    let s := { s with fast_head := some fhId, fresh := s.fresh + 1 }
    let ftId := s.fresh
    let ftGap : Int := if s.head = s.tail then 0 else max 1 (s.size - 1)
    let s := s.setF ftId { target := s.tail, prev := some fhId, gap := ftGap }
    let s := { s with fast_tail := some ftId, fresh := s.fresh + 1 }
    let s := update_tail_fast s
    let s := s.modF fhId (fun fn => { fn with next := some ftId })
    let s := s.modF ftId (fun fn => { fn with prev := some fhId })
    let s := { s with fast_count := 2 }
    match (s.fastsH.get fhId).bind FNode.target, (s.fastsH.get ftId).bind FNode.target with
    | some _, some _ => s
    | _, _ => clear_fast_layer s
  | _, _ => s

/-- Method `_append_fast node gap`: insert a new anchor targeting `node`
immediately before the tail sentinel. -/
def append_fast (s : SL) (node : Option Nat) (gap : Int) : SL :=
  match s.fast_tail, node with
  | some ftId, some nd =>
    match (s.fastsH.get ftId).bind FNode.prev with
    | none => s
    | some p =>
      let fnId := s.fresh
      let s := s.setF fnId { target := some nd, prev := some p, next := some ftId, gap := gap }
      let s := { s with fresh := s.fresh + 1 }
      let s := s.modF p (fun fn => { fn with next := some fnId })
      let s := s.modF ftId (fun fn => { fn with prev := some fnId })
      let s := s.modN nd (fun n => { n with fast := some fnId })
      { s with fast_count := s.fast_count + 1 }
  | _, _ => s

/-- Method `_remove_fast fn`: no-op on the sentinels; folds the removed
anchor's gap into the next anchor's gap, unlinks it, clears the target's
back-reference, and decrements `fast_count` only while it exceeds 2. -/
def remove_fast (s : SL) (fnId? : Option Nat) : SL :=
  match fnId? with
  | none => s
  | some fnId =>
    if s.fast_head = some fnId then s
    else if s.fast_tail = some fnId then s
    else
      match s.fastsH.get fnId with
      | none => s
      | some fn =>
        let s := match fn.prev, fn.next with
          | some _, some nx => s.modF nx (fun g => { g with gap := max 1 (g.gap + fn.gap) })
          | _, _ => s
        let s := match fn.prev with
          | some p => s.modF p (fun g => { g with next := fn.next })
          | none => s
        let s := match fn.next with
          | some nx => s.modF nx (fun g => { g with prev := fn.prev })
          | none => s
        let s := match fn.target with
          | some t => s.modN t (fun n => { n with fast := none })
          | none => s
        let s := s.modF fnId (fun g => { g with prev := none, next := none, target := none })
        if s.fast_count > 2 then { s with fast_count := s.fast_count - 1 } else s

/-- Step `k` times along `next` starting from `cur`, stopping early at
`None` (the body of the forward loops `cur = cur.next`). -/
def walkNext (s : SL) : Option Nat → Nat → Option Nat
  | cur, 0 => cur
  | none, _ + 1 => none
  | some nid, k + 1 => walkNext s ((s.nodesH.get nid).bind PNode.next) k

/-- Step `k` times along `prev` starting from `cur`, stopping early at
`None`. -/
def walkPrev (s : SL) : Option Nat → Nat → Option Nat
  | cur, 0 => cur
  | none, _ + 1 => none
  | some nid, k + 1 => walkPrev s ((s.nodesH.get nid).bind PNode.prev) k

/-- Method `_get_node_normal`: plain doubly-linked traversal from the
closer end. -/
def get_node_normal (s : SL) (i : Int) : Except PyErr (Option Nat) :=
  if i < 0 then .error .indexError
  else if s.size ≤ i then .error .indexError
  else if i ≤ s.size.fdiv 2 then .ok (walkNext s s.head i.toNat)
  else .ok (walkPrev s s.tail (s.size - 1 - i).toNat)

/-- Forward anchor walk of `get_node`: follow `fast.next` accumulating gaps
while the next anchor is not the tail sentinel and does not overshoot the
index.  Returns `none` for the mid-walk fallback to plain traversal
(a reached anchor with no target), otherwise the final `(cur, walked)`. -/
def fwdLoop (s : SL) : Nat → Option Nat → Option Nat → Int → Int →
    Option (Option Nat × Int)
  | 0, _, cur, walked, _ => some (cur, walked)
  | _ + 1, none, cur, walked, _ => some (cur, walked)
  | fuel + 1, some fid, cur, walked, i =>
    match (s.fastsH.get fid).bind FNode.next with
    | none => some (cur, walked)
    | some nxId =>
      if s.fast_tail = some nxId then some (cur, walked)
      else
        match s.fastsH.get nxId with
        | none => some (cur, walked)
        | some nxFn =>
          if walked + nxFn.gap > i then some (cur, walked)
          else
            match nxFn.target with
            | none => none
            | some t => fwdLoop s fuel (some nxId) (some t) (walked + nxFn.gap) i

/-- Backward anchor walk of `get_node` (gaps are consumed from the current
anchor while stepping to `fast.prev`). -/
def bwdLoop (s : SL) : Nat → Option Nat → Option Nat → Int → Int →
    Option (Option Nat × Int)
  | 0, _, cur, walked, _ => some (cur, walked)
  | _ + 1, none, cur, walked, _ => some (cur, walked)
  | fuel + 1, some fid, cur, walked, i =>
    match s.fastsH.get fid with
    | none => some (cur, walked)
    | some fn =>
      match fn.prev with
      | none => some (cur, walked)
      | some pvId =>
        if s.fast_head = some pvId then some (cur, walked)
        else if walked - fn.gap < i then some (cur, walked)
        else
          match (s.fastsH.get pvId).bind FNode.target with
          | none => none
          | some t => bwdLoop s fuel (some pvId) (some t) (walked - fn.gap) i

/-- Method `get_node`: endpoint shortcuts, the small-list fallback (which
lazily recomputes the skip distance), then the fast-lane walk finished by a
short plain walk.  The returned state differs from the input state at most
in `current_skip`. -/
def get_node (s : SL) (i : Int) : Except PyErr (Option Nat) × SL :=
  if i < 0 then (.error .indexError, s)
  else if s.size ≤ i then (.error .indexError, s)
  else if i = 0 then (.ok s.head, s)
  else if i = s.size - 1 then (.ok s.tail, s)
  else if s.fast_head = none then (get_node_normal s i, s)
  else if s.fast_count ≤ 2 then (get_node_normal s i, s)
  else
    let p := get_dynamic_skip s
    let s₁ := p.2
    if s₁.size < p.1 then (get_node_normal s₁ i, s₁)
    else if i ≤ s₁.size.fdiv 2 then
      match fwdLoop s₁ (s₁.fresh + 1) s₁.fast_head s₁.head 0 i with
      | none => (get_node_normal s₁ i, s₁)
      | some (cur, walked) => (.ok (walkNext s₁ cur (i - walked).toNat), s₁)
    else
      match bwdLoop s₁ (s₁.fresh + 1) s₁.fast_tail s₁.tail (s₁.size - 1) i with
      | none => (get_node_normal s₁ i, s₁)
      | some (cur, walked) => (.ok (walkPrev s₁ cur (walked - i).toNat), s₁)

/-- Method `get`: `self.get_node(index).data`; dereferencing a `None`
result raises `AttributeError`. -/
def get (s : SL) (i : Int) : Except PyErr Val × SL :=
  match get_node s i with
  | (.error e, s') => (.error e, s')
  | (.ok none, s') => (.error .attributeError, s')
  | (.ok (some nid), s') =>
    match s'.nodesH.get nid with
    | some n => (.ok n.data, s')
    | none => (.error .attributeError, s')

/-- Clearing loop of `_rebalance`: walk the anchor chain from just after
the head sentinel to the tail sentinel, clearing each target's
back-reference. -/
def rebalClearLoop (s : SL) : Nat → Option Nat → Nat → SL
  | 0, _, _ => s
  | _ + 1, none, _ => s
  | fuel + 1, some aid, ftId =>
    if aid = ftId then s
    else
      match s.fastsH.get aid with
      | none => s
      | some fn =>
        let s' := match fn.target with
          | some t => s.modN t (fun n => { n with fast := none })
          | none => s
        rebalClearLoop s' fuel fn.next ftId

/-- Rebuild loop of `_rebalance`: walk the primary list from the head,
appending a fresh anchor every `skip` nodes. -/
def rebalBuildLoop (s : SL) : Nat → Option Nat → Int → Int → Int → SL
  | 0, _, _, _, _ => s
  | _ + 1, none, _, _, _ => s
  | fuel + 1, some nid, counter, gap, skip =>
    if s.tail = some nid then s
    else
      let gap' := gap + 1
      match (s.nodesH.get nid).bind PNode.next with
      | none => rebalBuildLoop s fuel none (counter + 1) gap' skip
      | some nxt =>
        if counter > 0 then
          if counter.emod skip = 0 then
            let s' := append_fast s (some nid) gap'
            rebalBuildLoop s' fuel ((s'.nodesH.get nid).bind PNode.next) (counter + 1) 0 skip
          else rebalBuildLoop s fuel (some nxt) (counter + 1) gap' skip
        else rebalBuildLoop s fuel (some nxt) (counter + 1) gap' skip

/-- Method `_rebalance`: rebuild the fast layer with fresh spacing. -/
def rebalance (s : SL) : SL :=
  match s.fast_head, s.fast_tail, s.head with
  | some fh, some ft, some hd =>
    let s := if 4 * s.fast_count * s.fast_count < s.size then
        { s with current_skip := max MIN_SKIP (s.current_skip.fdiv 2) }
      else s
    let s := rebalClearLoop s (s.fresh + 1) (((s.fastsH.get fh)).bind FNode.next) ft
    let s := s.modF fh (fun fn => { fn with next := some ft })
    let s := s.modF ft (fun fn => { fn with prev := some fh })
    let s := { s with fast_count := 2 }
    let p := get_dynamic_skip s
    let s := rebalBuildLoop p.2 (p.2.fresh + 1) (some hd) 0 0 p.1
    update_tail_fast s
  | _, _, _ => s

/-- Method `_check_and_rebalance`: bump the drift counter and rebalance on
threshold or low anchor density. -/
def check_and_rebalance (s : SL) : SL :=
  let s := { s with ops_since_rebalance := s.ops_since_rebalance + 1 }
  if s.ops_since_rebalance ≥ REBALANCE_THRESHOLD then
    { rebalance s with ops_since_rebalance := 0 }
  else if s.fast_count > 2 then
    if 4 * s.fast_count * s.fast_count < s.size then
      { rebalance s with ops_since_rebalance := 0 }
    else s
  else s

/-- Method `add`: append to the tail, amortised O(1).  In the degenerate
states where `fast_tail` is gone while the list is non-empty, the
attribute write `self.fast_tail.gap = ...` raises, with all earlier
mutations kept -- exactly as in Python. -/
def add (s : SL) (v : Val) : Except PyErr Unit × SL :=
  let nid := s.fresh
  match s.head with
  | none =>
    let s := s.setN nid { data := v }
    let s := { s with fresh := s.fresh + 1, head := some nid, tail := some nid, size := 1 }
    let s := init_fast_layer s
    (.ok (), { s with pending_gap := 0 })
  | some _ =>
    let s := s.setN nid { data := v, prev := s.tail }
    let s := { s with fresh := s.fresh + 1 }
    match s.tail with
    | none => (.error .attributeError, s)
    | some t =>
      let s := s.modN t (fun n => { n with next := some nid })
      let s := { s with tail := some nid, size := s.size + 1 }
      let s := update_tail_fast s
      let s := { s with pending_gap := s.pending_gap + 1 }
      let p := get_dynamic_skip s
      let s := p.2
      if s.pending_gap ≥ p.1 then
        let beforeTail := (s.nodesH.get nid).bind PNode.prev
        let s := append_fast s beforeTail (s.pending_gap - 1)
        match s.fast_tail with
        | none => (.error .attributeError, s)
        | some ft =>
          let s := s.modF ft (fun fn => { fn with gap := 1 })
          (.ok (), { s with pending_gap := 1 })
      else
        match s.fast_tail with
        | none => (.error .attributeError, s)
        | some ft =>
          (.ok (), s.modF ft (fun fn => { fn with gap := s.pending_gap }))

/-- Shared gap-locating loop of `insert` and `remove_at`: walk the anchor
chain accumulating gaps and return the first anchor whose running total
overshoots the index. -/
def findUpdateFast (s : SL) : Nat → Option Nat → Int → Int → Option Nat
  | 0, _, _, _ => none
  | _ + 1, none, _, _ => none
  | fuel + 1, some fid, traversed, i =>
    match (s.fastsH.get fid).bind FNode.next with
    | none => none
    | some nxId =>
      match s.fastsH.get nxId with
      | none => none
      | some nxFn =>
        if traversed + nxFn.gap > i then some nxId
        else findUpdateFast s fuel (some nxId) (traversed + nxFn.gap) i

/-- Method `insert`. -/
def insert (s : SL) (i : Int) (v : Val) : Except PyErr Unit × SL :=
  if i < 0 then (.error .indexError, s)
  else if i > s.size then (.error .indexError, s)
  else if i = s.size then add s v
  else if i = 0 then
    let nid := s.fresh
    let s := s.setN nid { data := v, next := s.head }
    let s := { s with fresh := s.fresh + 1 }
    let s := match s.head with
      | some h => s.modN h (fun n => { n with prev := some nid })
      | none => { s with tail := some nid }
    let s := { s with head := some nid, size := s.size + 1 }
    if s.size = 1 then (.ok (), init_fast_layer s)
    else
      match s.fast_head with
      | none => (.ok (), s)
      | some fh =>
        let s := s.modF fh (fun fn => { fn with target := s.head })
        let s := s.modN nid (fun n => { n with fast := some fh })
        match (s.fastsH.get fh).bind FNode.next with
        | some nx => (.ok (), s.modF nx (fun g => { g with gap := max 1 (g.gap + 1) }))
        | none => (.ok (), s)
  else
    let updateFast := findUpdateFast s (s.fresh + 1) s.fast_head 0 i
    match get_node s i with
    | (.error e, s) => (.error e, s)
    | (.ok none, s) => (.error .valueError, s)
    | (.ok (some curId), s) =>
      let cp := (s.nodesH.get curId).bind PNode.prev
      let nid := s.fresh
      let s := s.setN nid { data := v, prev := cp, next := some curId }
      let s := { s with fresh := s.fresh + 1 }
      let s := match cp with
        | some p => s.modN p (fun n => { n with next := some nid })
        | none => s
      let s := s.modN curId (fun n => { n with prev := some nid })
      let s := { s with size := s.size + 1 }
      let s := match updateFast with
        | some uf => s.modF uf (fun g => { g with gap := max 1 (g.gap + 1) })
        | none => s
      if i > 1 then
        if i < s.size - 1 then
          let p := get_dynamic_skip s
          if (i + 1).emod p.1 = 0 then (.ok (), check_and_rebalance p.2)
          else (.ok (), p.2)
        else (.ok (), s)
      else (.ok (), s)

/-- Head-removal branch of `remove_at` after the guards, starting from the
stored head node. -/
def removeAtHead (s : SL) (hn : PNode) : Except PyErr Val × SL :=
  let s := { s with head := hn.next }
  let s := match hn.next with
    | some nh => s.modN nh (fun n => { n with prev := none })
    | none => { s with tail := none }
  let s := { s with size := s.size - 1 }
  if s.size = 0 then
    let s := clear_fast_layer s
    (.ok hn.data, { s with pending_gap := 0, current_skip := MIN_SKIP })
  else
    match s.fast_head with
    | none => (.error .attributeError, s)
    | some fh =>
      let s := s.modF fh (fun fn => { fn with target := s.head })
      match s.head with
      | none => (.error .attributeError, s)
      | some nh =>
        let s := s.modN nh (fun n => { n with fast := some fh })
        match (s.fastsH.get fh).bind FNode.next with
        | some nx => (.ok hn.data, s.modF nx (fun g => { g with gap := max 1 (g.gap - 1) }))
        | none => (.ok hn.data, s)

/-- Tail-removal branch of `remove_at` after the guards, starting from the
stored tail node. -/
def removeAtTail (s : SL) (tn : PNode) : Except PyErr Val × SL :=
  match tn.prev with
  | some p =>
    let s := { s with tail := some p }
    let s := s.modN p (fun n => { n with next := none })
    let s := { s with size := s.size - 1 }
    let s := update_tail_fast s
    let s := match s.fast_tail with
      | some ft =>
        match (s.fastsH.get ft).bind FNode.prev with
        | some _ => s.modF ft (fun fn => { fn with gap := max 1 (s.pending_gap - 1) })
        | none => s
      | none => s
    (.ok tn.data, { s with pending_gap := max 0 (s.pending_gap - 1) })
  | none =>
    let s := { s with head := none, tail := none, size := 0 }
    let s := clear_fast_layer s
    (.ok tn.data, { s with pending_gap := 0, current_skip := MIN_SKIP })

/-- Interior-removal branch of `remove_at` after `get_node` located the
target node id. -/
def removeAtMid (s : SL) (i : Int) (updateFast : Option Nat) (tid : Nat) :
    Except PyErr Val × SL :=
  match s.nodesH.get tid with
  | none => (.error .attributeError, s)
  | some tn =>
    let s := match tn.prev with
      | some p => s.modN p (fun n => { n with next := tn.next })
      | none => s
    let s := match tn.next with
      | some nx => s.modN nx (fun n => { n with prev := tn.prev })
      | none => s
    let s := { s with size := s.size - 1 }
    let byAnchor : Option Nat :=
      match (s.nodesH.get tid).bind PNode.fast with
      | some f =>
        if s.fast_head = some f then none
        else if s.fast_tail = some f then none
        else some f
      | none => none
    let s :=
      match byAnchor with
      | some f =>
        let s := match s.fastsH.get f with
          | some fn =>
            match fn.next with
            | some nx => s.modF nx (fun g => { g with gap := g.gap + fn.gap - 1 })
            | none => s
          | none => s
        remove_fast s (some f)
      | none =>
        match (s.nodesH.get tid).bind PNode.fast, updateFast with
        | some _, some uf => s.modF uf (fun g => { g with gap := max 1 (g.gap - 1) })
        | none, some uf => s.modF uf (fun g => { g with gap := max 1 (g.gap - 1) })
        | _, none => s
    if i > 1 then
      if i < s.size - 1 then (.ok tn.data, check_and_rebalance s)
      else (.ok tn.data, s)
    else (.ok tn.data, s)

/-- Method `remove_at`. -/
def remove_at (s : SL) (i : Int) : Except PyErr Val × SL :=
  if i < 0 then (.error .indexError, s)
  else if s.size ≤ i then (.error .indexError, s)
  else if i = 0 then
    match s.head with
    | none => (.error .attributeError, s)
    | some h =>
      match s.nodesH.get h with
      | none => (.error .attributeError, s)
      | some hn => removeAtHead s hn
  else if i = s.size - 1 then
    match s.tail with
    | none => (.error .attributeError, s)
    | some t =>
      match s.nodesH.get t with
      | none => (.error .attributeError, s)
      | some tn => removeAtTail s tn
  else
    let updateFast := findUpdateFast s (s.fresh + 1) s.fast_head 0 i
    match get_node s i with
    | (.error e, s) => (.error e, s)
    | (.ok none, s) => (.error .valueError, s)
    | (.ok (some tid), s) => removeAtMid s i updateFast tid

/-- Method `_remove_node_and_update node nearest_fast`: unlink `node` from
the primary list, fix the fast layer (via the node's own anchor if it has
one, else by shrinking the chunk's trailing gap), then count the op. -/
def remove_node_and_update (s : SL) (nid : Nat) (nearestFast : Nat) : SL :=
  match s.nodesH.get nid with
  | none => s
  | some n =>
    let s := match n.prev with
      | some p => s.modN p (fun m => { m with next := n.next })
      | none => s
    let s := match n.next with
      | some nx => s.modN nx (fun m => { m with prev := n.prev })
      | none => s
    let s := match n.fast with
      | some f => remove_fast s (some f)
      | none =>
        match (s.fastsH.get nearestFast).bind FNode.next with
        | some nx => s.modF nx (fun g => { g with gap := max 1 (g.gap - 1) })
        | none => s
    let s := { s with size := s.size - 1 }
    check_and_rebalance s

/-- Inner scan of `_search_chunk`: walk plain nodes while `remaining > 0`
(the fuel) and the end anchor target is not reached.  Accessing `data` or
`next` of a vanished node is the Python `AttributeError`. -/
def chunkScan (s : SL) : Nat → Option Nat → Nat → Val → Nat → Except PyErr Bool × SL
  | 0, _, _, _, _ => (.ok false, s)
  | _ + 1, none, _, _, _ => (.error .attributeError, s)
  | fuel + 1, some cid, endId, v, fid =>
    if cid = endId then (.ok false, s)
    else
      match s.nodesH.get cid with
      | none => (.error .attributeError, s)
      | some pn =>
        if pn.data = v then (.ok true, remove_node_and_update s cid fid)
        else chunkScan s fuel pn.next endId v fid

/-- Method `_search_chunk fast value`: test the chunk's leading anchor
target, then scan the plain nodes strictly inside the chunk. -/
def search_chunk (s : SL) (fastId? : Option Nat) (v : Val) : Except PyErr Bool × SL :=
  match fastId? with
  | none => (.ok false, s)
  | some fid =>
    match s.fastsH.get fid with
    | none => (.ok false, s)
    | some fn =>
      match fn.next with
      | none => (.ok false, s)
      | some nxId =>
        let targetHit : Option Nat := match fn.target with
          | some t =>
            match s.nodesH.get t with
            | some pn => if pn.data = v then some t else none
            | none => none
          | none => none
        match targetHit with
        | some t => (.ok true, remove_node_and_update s t fid)
        | none =>
          let current : Option Nat := match fn.target with
            | some t => (s.nodesH.get t).bind PNode.next
            | none => none
          let searchEnd : Option Nat := (s.fastsH.get nxId).bind FNode.target
          match current, searchEnd with
          | some c, some e =>
            let remaining := ((s.fastsH.get nxId).elim 0 FNode.gap) - 1
            chunkScan s remaining.toNat (some c) e v fid
          | _, _ => (.ok false, s)

/-- The bidirectional scan loop of `remove`: advance a front cursor and a
back cursor one chunk at a time until they meet or a match removes a
node. -/
def removeLoop (s : SL) : Nat → Option Nat → Option Nat → Int → Int → Val →
    Except PyErr Bool × SL
  | 0, _, _, _, _, _ => (.ok false, s)
  | fuel + 1, frontF?, backF?, frontIdx, backIdx, v =>
    match frontF?, backF? with
    | some ff, some bf =>
      match (s.fastsH.get ff).bind FNode.next, (s.fastsH.get bf).bind FNode.prev with
      | some _, some bp =>
        if frontIdx < backIdx then
          match search_chunk s (some ff) v with
          | (.error e, s₁) => (.error e, s₁)
          | (.ok true, s₁) => (.ok true, s₁)
          | (.ok false, s₁) =>
            match (s₁.fastsH.get ff).bind FNode.next with
            | none => (.ok false, s₁)
            | some fnx =>
              let frontIdx' := frontIdx + ((s₁.fastsH.get fnx).elim 0 FNode.gap)
              if frontIdx' < backIdx then
                match search_chunk s₁ (some bp) v with
                | (.error e, s₂) => (.error e, s₂)
                | (.ok true, s₂) => (.ok true, s₂)
                | (.ok false, s₂) =>
                  let backIdx' := backIdx - ((s₂.fastsH.get bf).elim 0 FNode.gap)
                  removeLoop s₂ fuel (some fnx) ((s₂.fastsH.get bf).bind FNode.prev) frontIdx' backIdx' v
              else
                removeLoop s₁ fuel (some fnx) (some bf) frontIdx' backIdx v
        else (.ok false, s)
      | _, _ => (.ok false, s)
    | _, _ => (.ok false, s)

/-- Method `remove`: quick head/tail checks then the bidirectional chunk
scan; absent values (and `None`) yield `False`. -/
def remove (s : SL) (v : Val) : Except PyErr Bool × SL :=
  match s.head with
  | none => (.ok false, s)
  | some h =>
    match v with
    | none => (.ok false, s)
    | some w =>
      if ((s.nodesH.get h).map PNode.data) = some (some w) then
        match remove_at s 0 with
        | (.error e, s') => (.error e, s')
        | (.ok _, s') => (.ok true, s')
      else
        match s.tail with
        | none => (.error .attributeError, s)
        | some t =>
          if ((s.nodesH.get t).map PNode.data) = some (some w) then
            match remove_at s (s.size - 1) with
            | (.error e, s') => (.error e, s')
            | (.ok _, s') => (.ok true, s')
          else
            removeLoop s (s.fresh + 1) s.fast_head s.fast_tail 0 (s.size - 1) (some w)

/-- Method `__len__`. -/
def lenOf (s : SL) : Int := s.size

/-- Method `clear`. -/
def clear (s : SL) : SL :=
  let s := { s with head := none, tail := none }
  let s := clear_fast_layer s
  { s with size := 0, pending_gap := 0, ops_since_rebalance := 0, current_skip := MIN_SKIP }

/-- A public mutating operation of the container, for building traces. -/
inductive Op where
  | add (v : Val)
  | insertAt (i : Int) (v : Val)
  | removeAt (i : Int)
  | removeVal (v : Val)
  | clearAll
deriving Repr

/-- Execute one operation, keeping the state an exception would leave
behind and discarding the result (results of interest are re-evaluated in
the theorems below). -/
def doOp (s : SL) : Op → SL
  | .add v => (add s v).2
  | .insertAt i v => (insert s i v).2
  | .removeAt i => (remove_at s i).2
  | .removeVal v => (remove s v).2
  | .clearAll => clear s

/-- Run a trace of operations from the freshly constructed container. -/
def runOps (ops : List Op) : SL := ops.foldl doOp SL.empty

/-- The forward value sequence of the primary list (ground truth for
element order, read off by following `next` from `head`). -/
def toListLoop (s : SL) : Nat → Option Nat → List Val
  | 0, _ => []
  | _ + 1, none => []
  | fuel + 1, some nid =>
    match s.nodesH.get nid with
    | none => []
    | some pn => pn.data :: toListLoop s fuel pn.next

/-- Forward value sequence of the container's primary list. -/
def toList (s : SL) : List Val := toListLoop s (s.fresh + 1) s.head

/-- Sum of the `gap` fields along the fast-lane chain starting at the head
sentinel (the quantity the gap-sum invariant speaks about). -/
def gapSumLoop (s : SL) : Nat → Option Nat → Int → Int
  | 0, _, acc => acc
  | _ + 1, none, acc => acc
  | fuel + 1, some aid, acc =>
    match s.fastsH.get aid with
    | none => acc
    | some fn => gapSumLoop s fuel fn.next (acc + fn.gap)

/-- Total gap over all fast-lane anchors from head sentinel to tail
sentinel. -/
def gapSum (s : SL) : Int := gapSumLoop s (s.fresh + 1) s.fast_head 0

/-- The gap stored on the tail sentinel, when it exists. -/
def fastTailGap (s : SL) : Option Int :=
  s.fast_tail.bind fun ft => (s.fastsH.get ft).map FNode.gap

/-- Modelled from the spec: the independent reference sequence (a plain
array) that the test oracle maintains alongside the container, with the
public semantics the spec assigns to each operation. -/
def refStep (xs : List Val) : Op → List Val
  | .add v => xs ++ [v]
  | .insertAt i v =>
    if 0 ≤ i then
      if i ≤ (xs.length : Int) then xs.take i.toNat ++ v :: xs.drop i.toNat else xs
    else xs
  | .removeAt i =>
    if 0 ≤ i then
      if i < (xs.length : Int) then xs.eraseIdx i.toNat else xs
    else xs
  | .removeVal v =>
    match v with
    | none => xs
    | some w =>
      let rec eraseFirst : List Val → List Val
        | [] => []
        | x :: rest => if x = some w then rest else x :: eraseFirst rest
      eraseFirst xs
  | .clearAll => []

/-- Run the reference sequence over a trace. -/
def refRun (ops : List Op) : List Val := ops.foldl refStep []

/-- Index lookup in the reference sequence. -/
def refAt (xs : List Val) (i : Int) : Option Val :=
  if 0 ≤ i then xs.get? i.toNat else none

/-- A trace of `n` consecutive `add` operations with the integer values
`lo, lo+1, ..., hi`. -/
def adds (lo hi : Int) : List Op :=
  (List.range (hi - lo + 1).toNat).map (fun k : Nat => Op.add (some (lo + (k : Int))))

/-- Sixty appends followed by removal (by value) of the anchor-target value
48: the remove folds the anchor's gap without subtracting the removed
position, then a density-triggered rebalance rebuilds the lane with an
off-by-one first gap and a stale tail gap. -/
def trace1 : List Op := adds 0 59 ++ [.removeVal (some 48)]

/-- Two appends then removal of the last element: the tail-sentinel gap is
clamped at 1 although both sentinels now target the same single node. -/
def trace2 : List Op := [.add (some 10), .add (some 11), .removeAt 1]

/-- Twenty-seven appends, three removals at the tail (the second of which
re-targets the tail sentinel onto the anchor target 24, clobbering its
back-reference, and the third of which deletes that node, leaving the
anchor dangling on a dead node), then thirty-six more appends so the fast
lane is used again. -/
def trace3 : List Op :=
  adds 0 26 ++ [.removeAt 26, .removeAt 25, .removeAt 24] ++ adds 27 62

/-- Twenty-eight appends, twenty-five head removals (which clamp the
interior anchor's gap at 1 and leave it dangling on the removed node 24),
a value removal of 24 that decrements `size` without touching any live
node, two further head removals driving the size counter to zero while two
live nodes remain, and a final `add` that raises after setting
`size = 1` with the fast layer still absent. -/
def trace7 : List Op :=
  adds 0 27 ++ (List.replicate 25 (Op.removeAt 0)) ++
  [.removeVal (some 24), .removeAt 0, .removeAt 0, .add (some 99)]

/-- Reading a written heap cell: the update is visible exactly at its own
id. -/
theorem Heap.get_set (h : Heap α) (i j : Nat) (a : α) :
    (h.set i a).get j = if j = i then some a else h.get j := by
  induction h with
  | nil =>
    simp only [Heap.set, Heap.get]
    split_ifs <;> simp_all
  | cons p t ih =>
    obtain ⟨k, b⟩ := p
    simp only [Heap.set, Heap.get]
    split_ifs <;> simp_all [Heap.get]

/-- Reading a modified heap cell: the mutation is visible exactly at its
own id when that id is allocated. -/
theorem Heap.get_mod (h : Heap α) (i j : Nat) (f : α → α) :
    (h.mod i f).get j = if j = i then (h.get i).map f else h.get j := by
  induction h with
  | nil => simp [Heap.mod, Heap.get]
  | cons p t ih =>
    obtain ⟨k, b⟩ := p
    simp only [Heap.mod, Heap.get]
    split_ifs <;> simp_all [Heap.get]

/-- A read never touches the state except through the lazy skip-distance
recomputation: the state returned by `get_node` is the input state with at
most `current_skip` replaced. -/
theorem get_node_frame (s : SL) (i : Int) :
    (get_node s i).2 = { s with current_skip := (get_node s i).2.current_skip } := by
  unfold get_node
  repeat' split <;> try rfl
  all_goals dsimp only
  all_goals repeat' split <;> try rfl

/-- The state `get` returns is exactly the state `get_node` returns. -/
theorem get_state (s : SL) (i : Int) : (get s i).2 = (get_node s i).2 := by
  unfold get
  rcases hg : get_node s i with ⟨r, s'⟩
  rcases r with e | nid?
  · simp
  · rcases nid? with _ | nid
    · simp
    · simp only
      cases hn : s'.nodesH.get nid <;> simp [hn]

set_option maxRecDepth 200000

/-- Claim C1 (code bug): the container does not match the reference
sequence.  After sixty appends of 0..59 and `remove(48)`, the container
and the reference sequence agree on the length (59), but `get(27)` returns
26 while the reference holds 27 at index 27: the removal folded the
removed anchor's gap without subtracting the removed position and the
subsequent rebalance rebuilt the first anchor with gap 26 for a node at
position 25, so the final plain walk starts one position short. -/
theorem c1_oracle_divergence :
    lenOf (runOps trace1) = ((refRun trace1).length : Int) ∧
    (get (runOps trace1) 27).1 = .ok (some 26) ∧
    refAt (refRun trace1) 27 = some (some 27) :=
  ⟨rfl, rfl, rfl⟩

/-- Claim C2 (code bug): the gap-sum invariant fails.  After `add(10)`,
`add(11)`, `remove_at(1)` the size is 1 but the anchor gaps from head
sentinel to tail sentinel sum to 1, not `size - 1 = 0`: the tail-removal
path sets the tail-sentinel gap to `max(1, pending_gap - 1)`, which cannot
represent the gap 0 of a single-element list. -/
theorem c2_gap_sum_divergence :
    (runOps trace2).size = 1 ∧ gapSum (runOps trace2) = 1 :=
  ⟨rfl, rfl⟩

/-- Claim C3 (code bug): errors other than the OutOfRange index error
reach the caller.  After `trace3` the size is 60, yet `get(25)` raises
`AttributeError` (the fast walk lands on a dangling anchor whose dead
target has no successor, so `get_node` returns `None` and `.data` is taken
on `None`) and `insert(25, 7)` raises `ValueError` at its explicit
`raise` statement. -/
theorem c3_non_oor_failure :
    (runOps trace3).size = 60 ∧
    (get (runOps trace3) 25).1 = .error .attributeError ∧
    (insert (runOps trace3) 25 (some 7)).1 = .error .valueError :=
  ⟨rfl, rfl, rfl⟩

/-- Claim C4, counterexample: on the empty-to-one-element transition (the
only reachable initialization), the tail sentinel is created with gap 0,
not `max(1, size - 1) = 1` as the claim states. -/
theorem c4_counterexample :
    (runOps [Op.add (some 5)]).size = 1 ∧
    fastTailGap (runOps [Op.add (some 5)]) = some 0 ∧
    max 1 ((runOps [Op.add (some 5)]).size - 1) = 1 :=
  ⟨rfl, rfl, rfl⟩

/-- Claim C4 as amended: when the fast lane is initialized on a list whose
head and tail exist and no fast lane is present, head-sentinel and
tail-sentinel anchors bracketing the whole list are created (head sentinel
targeting the head with gap 0, tail sentinel targeting the tail,
`fast_count = 2`), and the tail sentinel's gap is 0 when head and tail are
the same node and `max(1, size - 1)` otherwise. -/
theorem c4_amended (s : SL) (h t : Nat) (hh : s.head = some h) (ht : s.tail = some t)
    (hf : s.fast_head = none) :
    (init_fast_layer s).fast_head = some s.fresh ∧
    (init_fast_layer s).fast_tail = some (s.fresh + 1) ∧
    (init_fast_layer s).fast_count = 2 ∧
    (init_fast_layer s).fastsH.get s.fresh =
      some ⟨some h, none, some (s.fresh + 1), 0⟩ ∧
    (init_fast_layer s).fastsH.get (s.fresh + 1) =
      some ⟨some t, some s.fresh, none, if h = t then 0 else max 1 (s.size - 1)⟩ := by
  have h1 : s.fresh ≠ s.fresh + 1 := by omega
  have h2 : s.fresh + 1 ≠ s.fresh := by omega
  simp only [init_fast_layer, hh, hf, ht, update_tail_fast, SL.setF, SL.setN, SL.modF,
    SL.modN, Heap.get_set, Heap.get_mod, h1, h2, if_true, if_false, ite_true, ite_false,
    Option.map_some', Option.some_bind, Option.some.injEq]
  exact ⟨trivial, trivial, trivial, trivial, trivial⟩

/-- A one-element pre-initialization state: a single node of value 5 at id
0 that is both head and tail, with no fast layer. -/
def preInit : SL :=
  { nodesH := [(0, { data := some 5 })], fastsH := [],
    head := some 0, tail := some 0, size := 1, fresh := 1 }

/-- Witness for the amended claim C4 at the concrete one-element state. -/
theorem c4_amended_witness :
    (init_fast_layer preInit).fast_head = some preInit.fresh ∧
    (init_fast_layer preInit).fast_tail = some (preInit.fresh + 1) ∧
    (init_fast_layer preInit).fast_count = 2 ∧
    (init_fast_layer preInit).fastsH.get preInit.fresh =
      some ⟨some 0, none, some (preInit.fresh + 1), 0⟩ ∧
    (init_fast_layer preInit).fastsH.get (preInit.fresh + 1) =
      some ⟨some 0, some preInit.fresh, none, if 0 = 0 then 0 else max 1 (preInit.size - 1)⟩ :=
  c4_amended preInit 0 0 rfl rfl rfl

/-- Claim C5: `add` on a non-empty list appends the value to the primary
tail (a fresh node whose `prev` is the old tail and which the old tail's
`next` now references), re-points the tail sentinel to the new node, and
increments `pending_gap`; if the incremented `pending_gap` reaches the
policy's current skip distance, the node just before the new tail (the old
tail) is promoted to a permanent anchor with gap `pending_gap - 1` and
both the tail sentinel's gap and `pending_gap` are reset to 1; otherwise
the tail sentinel's gap is set to the incremented `pending_gap`. -/
theorem c5_add_nonempty (s : SL) (v : Val) (h t ft fp : Nat) (ftn : FNode) (tn : PNode)
    (hh : s.head = some h) (htl : s.tail = some t) (hft : s.fast_tail = some ft)
    (hlk : s.fastsH.get ft = some ftn) (hprev : ftn.prev = some fp)
    (htn : s.nodesH.get t = some tn)
    (htf : t < s.fresh) (hff : ft < s.fresh) (hpf : fp < s.fresh) (hfpft : fp ≠ ft) :
    (add s v).1 = .ok () ∧
    (add s v).2.tail = some s.fresh ∧
    (add s v).2.size = s.size + 1 ∧
    (add s v).2.nodesH.get s.fresh = some ⟨v, some t, none, some ft⟩ ∧
    ((add s v).2.nodesH.get t).map PNode.next = some (some s.fresh) ∧
    ((add s v).2.fastsH.get ft).map FNode.target = some (some s.fresh) ∧
    (if s.pending_gap + 1 ≥ (dynSkipPair (s.size + 1) s.current_skip).1 then
       (add s v).2.pending_gap = 1 ∧
       ((add s v).2.fastsH.get ft).map FNode.gap = some 1 ∧
       (add s v).2.fast_count = s.fast_count + 1 ∧
       (add s v).2.fastsH.get (s.fresh + 1) = some ⟨some t, some fp, some ft, s.pending_gap⟩
     else
       (add s v).2.pending_gap = s.pending_gap + 1 ∧
       ((add s v).2.fastsH.get ft).map FNode.gap = some (s.pending_gap + 1) ∧
       (add s v).2.fast_count = s.fast_count) := by
  have d1 : t ≠ s.fresh := by omega
  have d2 : ft ≠ s.fresh + 1 := by omega
  have d3 : fp ≠ s.fresh + 1 := by omega
  have d4 : s.fresh ≠ t := by omega
  simp only [add, hh, htl, hft, hlk, hprev, update_tail_fast, append_fast,
    get_dynamic_skip, SL.setN, SL.setF, SL.modN, SL.modF, Heap.get_set, Heap.get_mod,
    d1, d2, d3, d4, if_true, if_false, ite_true, ite_false, Option.map_some',
    Option.some_bind, Option.some.injEq]
  split_ifs with hp <;>
    simp [Heap.get_set, Heap.get_mod, d1, d2, d3, d4, hfpft, Ne.symm hfpft, Ne.symm d2,
      Ne.symm d3, Ne.symm d1, hlk, htn, hprev, Int.add_sub_cancel]

/-- The container after two appends, used to witness the `add` theorem. -/
def twoState : SL := runOps [.add (some 0), .add (some 1)]

/-- Witness for claim C5 at the concrete two-element state (head node 0,
tail node 3, tail sentinel 2 whose predecessor is the head sentinel 1). -/
theorem c5_add_nonempty_witness :
    (add twoState (some 7)).1 = .ok () ∧
    (add twoState (some 7)).2.tail = some twoState.fresh ∧
    (add twoState (some 7)).2.size = twoState.size + 1 ∧
    (add twoState (some 7)).2.nodesH.get twoState.fresh =
      some ⟨some 7, some 3, none, some 2⟩ ∧
    ((add twoState (some 7)).2.nodesH.get 3).map PNode.next = some (some twoState.fresh) ∧
    ((add twoState (some 7)).2.fastsH.get 2).map FNode.target =
      some (some twoState.fresh) ∧
    (if twoState.pending_gap + 1 ≥
        (dynSkipPair (twoState.size + 1) twoState.current_skip).1 then
       (add twoState (some 7)).2.pending_gap = 1 ∧
       ((add twoState (some 7)).2.fastsH.get 2).map FNode.gap = some 1 ∧
       (add twoState (some 7)).2.fast_count = twoState.fast_count + 1 ∧
       (add twoState (some 7)).2.fastsH.get (twoState.fresh + 1) =
         some ⟨some 3, some 1, some 2, twoState.pending_gap⟩
     else
       (add twoState (some 7)).2.pending_gap = twoState.pending_gap + 1 ∧
       ((add twoState (some 7)).2.fastsH.get 2).map FNode.gap =
         some (twoState.pending_gap + 1) ∧
       (add twoState (some 7)).2.fast_count = twoState.fast_count) :=
  c5_add_nonempty twoState (some 7) 0 3 2 1
    ⟨some 3, some 1, none, 1⟩ ⟨some 1, some 0, none, some 2⟩
    rfl rfl rfl rfl rfl rfl (by decide) (by decide) (by decide) (by decide)

/-- Claim C6 (code bug): removing an absent value is not a no-op.  After
`trace3` the value 24 is at no live index (the forward value sequence does
not contain it), yet `remove(24)` returns `True` and decrements `size`:
the dangling anchor left by the tail-removal clobbering still targets the
dead node holding 24, and the chunk scan matches it. -/
theorem c6_remove_absent_divergence :
    ¬ some 24 ∈ toList (runOps trace3) ∧
    (remove (runOps trace3) (some 24)).1 = .ok true ∧
    (remove (runOps trace3) (some 24)).2.size = (runOps trace3).size - 1 :=
  ⟨by decide, rfl, rfl⟩

/-- Claim C7 (code bug): the `fast_count`/`size` invariant fails.  After
`trace7` the state has `size = 1` with `fast_count = 0` (the final `add`
raised `AttributeError` after incrementing `size` from the desynchronised
counter 0 while two live nodes existed and the fast layer was gone), and a
subsequent completed `remove(None)` returns `False` leaving that violating
state in place. -/
theorem c7_fast_count_divergence :
    (runOps trace7).size = 1 ∧ (runOps trace7).fast_count = 0 ∧
    (remove (runOps trace7) none).1 = .ok false ∧
    (remove (runOps trace7) none).2.size = 1 ∧
    (remove (runOps trace7) none).2.fast_count = 0 :=
  ⟨rfl, rfl, rfl, rfl, rfl⟩

/-- Claim C8: `clear` is idempotent -- two consecutive `clear` calls
produce a state identical to one `clear`, and that state has size 0, no
fast lane, `pending_gap = 0`, a zero drift counter, and the skip distance
at its minimum. -/
theorem c8_clear_idempotent (s : SL) :
    clear (clear s) = clear s ∧ (clear s).size = 0 ∧ (clear s).fast_head = none ∧
    (clear s).fast_tail = none ∧ (clear s).fast_count = 0 ∧ (clear s).pending_gap = 0 ∧
    (clear s).ops_since_rebalance = 0 ∧ (clear s).current_skip = MIN_SKIP :=
  ⟨rfl, rfl, rfl, rfl, rfl, rfl, rfl, rfl⟩

/-- Claim C9: `remove(None)` returns `False` and leaves the container
state completely unchanged, for every container state -- in particular
also when `None` is stored as an element, so a stored `None` is never
findable or removable by value. -/
theorem c9_remove_none (s : SL) : remove s none = (.ok false, s) := by
  rcases hs : s.head with _ | h <;> simp [remove, hs]

/-- Claim C10: a read at a valid index leaves the node heap (hence the
primary-list sequence), the anchor heap (hence the fast-lane chain and all
gap fields), `size`, `pending_gap` and `ops_since_rebalance` unchanged, for
both `get_node` and `get`; the returned state is the input state with at
most `current_skip` replaced. -/
theorem c10_read_frame (s : SL) (i : Int) (_h0 : 0 ≤ i) (_h1 : i < s.size) :
    (get_node s i).2.nodesH = s.nodesH ∧
    (get_node s i).2.fastsH = s.fastsH ∧
    (get_node s i).2.size = s.size ∧
    (get_node s i).2.pending_gap = s.pending_gap ∧
    (get_node s i).2.ops_since_rebalance = s.ops_since_rebalance ∧
    (get_node s i).2 = { s with current_skip := (get_node s i).2.current_skip } ∧
    (get s i).2 = (get_node s i).2 := by
  have hf := get_node_frame s i
  refine ⟨?_, ?_, ?_, ?_, ?_, hf, get_state s i⟩ <;> rw [hf]

/-- The container after three appends, used to witness the read-frame
theorem. -/
def threeState : SL := runOps [.add (some 4), .add (some 5), .add (some 6)]

/-- Witness for claim C10 at the concrete three-element state and index 1. -/
theorem c10_read_frame_witness :
    0 ≤ (1 : Int) ∧ 1 < threeState.size ∧
    ((get_node threeState 1).2.nodesH = threeState.nodesH ∧
     (get_node threeState 1).2.fastsH = threeState.fastsH ∧
     (get_node threeState 1).2.size = threeState.size ∧
     (get_node threeState 1).2.pending_gap = threeState.pending_gap ∧
     (get_node threeState 1).2.ops_since_rebalance = threeState.ops_since_rebalance ∧
     (get_node threeState 1).2 =
       { threeState with current_skip := (get_node threeState 1).2.current_skip } ∧
     (get threeState 1).2 = (get_node threeState 1).2) :=
  ⟨by decide, by decide, c10_read_frame threeState 1 (by decide) (by decide)⟩

end SkipVerify
